import Mathlib

/-!
Verification development for the quota/payment command core of the
Greenfield storage CLI (`cmd/cmd_payment.go`).

The external chain client is modelled as a record of response functions
(a stub), and each command action is embedded as a pure function that
returns its process outcome (the returned Go `error`, with `none`
standing for the nil, process-success outcome), the ordered list of
chain calls it issued, and the ordered list of output lines it printed.
-/

/-- Errors surfaced by the external chain client on a single call.
The `cancelled` constructor is the cancellation-shaped error produced
when the call's context is cancelled in flight; `chain msg` is any
other chain-level failure (rejection, not-found, transport error). -/
inductive ClientErr where
  | cancelled
  | chain (msg : String)
deriving DecidableEq, Repr

/-- The string produced by `err.Error()` on a client error. -/
def ClientErr.message : ClientErr → String
  | .cancelled => "context canceled"
  | .chain msg => msg

/-- Broadcast (commitment) modes of the cosmos-sdk `tx.BroadcastMode`
enumeration used at `cmd_payment.go:101`. -/
inductive BroadcastMode where
  | unspecified
  | block
  | sync
  | async
deriving DecidableEq, Repr

/-- The `types.TxOption` value built at `cmd_payment.go:102`: an
optional broadcast mode (the Go field is a pointer, hence `Option`). -/
structure TxOption where
  mode : Option BroadcastMode
deriving DecidableEq, Repr

/-- The `sdktypes.BuyQuotaOption` passed at `cmd_payment.go:104`: an
optional pointer to transaction options. -/
structure BuyQuotaOption where
  txOpts : Option TxOption
deriving DecidableEq, Repr

/-- A chain-side decimal price (sdk `Dec`), modelled by its fallible
`Float64` conversion, which is all the command core uses of it
(`cmd_payment.go:135,141`). -/
structure Dec where
  float64 : Except String Float

/-- Result of `client.GetStoragePrice`: the read price and store price
decimals (`cmd_payment.go:130`). -/
structure StoragePrice where
  readPrice : Dec
  storePrice : Dec

/-- Result of `client.GetBucketReadQuota`: the three quota counters
printed at `cmd_payment.go:178-179`. -/
structure QuotaInfo where
  readQuotaSize : Nat
  spFreeReadQuotaSize : Nat
  readConsumedSize : Nat
deriving DecidableEq, Repr

/-- The external chain client collaborator, as a stub of response
functions: existence check, price query, fee-bearing quota-purchase
submission, and quota-ledger read. -/
structure ChainClient where
  headBucket : String → Except ClientErr Unit
  getStoragePrice : String → Except ClientErr StoragePrice
  buyQuotaForBucket : String → Nat → BuyQuotaOption → Except ClientErr String
  getBucketReadQuota : String → Except ClientErr QuotaInfo

/-- One network call issued to the chain client, recorded with the
arguments it was given. -/
inductive ChainCall where
  | headBucket (bucketName : String)
  | getStoragePrice (spAddress : String)
  | buyQuotaForBucket (bucketName : String) (targetQuota : Nat) (opt : BuyQuotaOption)
  | getBucketReadQuota (bucketName : String)
deriving DecidableEq, Repr

/-- Output lines printed by the commands, one constructor per
`fmt.Println` / `fmt.Printf` site in `cmd_payment.go`. -/
inductive OutputLine where
  | buyQuotaError (msg : String)                    -- line 107
  | buyQuotaSuccess (bucketName txnHash : String)   -- line 111
  | quotaPriceError (msg : String)                  -- line 137
  | storagePriceError (msg : String)                -- line 143
  | readQuotaPrice (price : Float)                  -- line 147
  | storagePrice (price : Float)                    -- line 148
  | quotaInfo (charged free consumed : Nat)         -- lines 178-179

/-- Errors returned by a command action (a non-nil Go `error`). -/
inductive CmdErr where
  | bucketNotExist
  | inputErr (msg : String)
  | client (e : ClientErr)
  | parseErr (msg : String)
deriving DecidableEq, Repr

/-- Modelled from the spec: `toCmdErr` is defined outside the provided
source; per the spec it surfaces an error as a nonzero process exit
with a descriptive message and does not change which error kind is
reported, so it is the identity on the error value here. -/
def toCmdErr (e : CmdErr) : CmdErr := e

/-- Modelled from the spec: `ErrBucketNotExist` is defined outside the
provided source; per the spec it is the dedicated bucket-not-found
error kind, distinct from generic chain errors. -/
def ErrBucketNotExist : CmdErr := CmdErr.bucketNotExist

/-- Outcome of one command invocation: the returned Go `error` (`none`
is the nil, process-success outcome), the chain calls issued in order,
and the printed output lines in order. -/
structure RunResult where
  result : Option CmdErr
  calls : List ChainCall
  output : List OutputLine

/-- Embedding of `buyQuotaForBucket` (`cmd_payment.go:76-113`).
The resource-locator resolution (`getBucketNameByUrl`, line 77) and
client construction (`NewClient`, line 82) are external collaborators;
their successful results `bucketName` and `client` are parameters here,
and a failure in either returns before anything modelled below runs.
The body follows the source order: existence check (line 91), zero
target-quota validation (line 97), submission with block broadcast mode
(lines 101-104), then the downgraded error report (lines 106-109) or
the success report (line 111). -/
def buyQuotaForBucket (client : ChainClient) (bucketName : String)
    (targetQuota : Nat) : RunResult :=
  match client.headBucket bucketName with
  | .error _ =>
      ⟨some (toCmdErr ErrBucketNotExist), [.headBucket bucketName], []⟩
  | .ok _ =>
      if targetQuota = 0 then
        ⟨some (toCmdErr (.inputErr "target quota not set")),
         [.headBucket bucketName], []⟩
      else
        let broadcastMode := BroadcastMode.block
        let txnOpt : TxOption := ⟨some broadcastMode⟩
        let opt : BuyQuotaOption := ⟨some txnOpt⟩
        match client.buyQuotaForBucket bucketName targetQuota opt with
        | .error err =>
            ⟨none,
             [.headBucket bucketName,
              .buyQuotaForBucket bucketName targetQuota opt],
             [.buyQuotaError err.message]⟩
        | .ok txnHash =>
            ⟨none,
             [.headBucket bucketName,
              .buyQuotaForBucket bucketName targetQuota opt],
             [.buyQuotaSuccess bucketName txnHash]⟩

/-- Embedding of `getQuotaPrice` (`cmd_payment.go:116-150`): empty
address check (line 126), price query (line 130), read-price conversion
(lines 135-139), store-price conversion (lines 141-145), then the two
price lines (lines 147-148).  The conversion-failure branches return
the conversion error directly (not through `toCmdErr`), as the source
does. -/
def getQuotaPrice (client : ChainClient) (spAddressStr : String) : RunResult :=
  if spAddressStr = "" then
    ⟨some (toCmdErr (.inputErr "fail to fetch sp address")), [], []⟩
  else
    match client.getStoragePrice spAddressStr with
    | .error err =>
        ⟨some (toCmdErr (.client err)), [.getStoragePrice spAddressStr], []⟩
    | .ok price =>
        match price.readPrice.float64 with
        | .error e =>
            ⟨some (.parseErr e), [.getStoragePrice spAddressStr],
             [.quotaPriceError e]⟩
        | .ok quotaPrice =>
            match price.storePrice.float64 with
            | .error e =>
                ⟨some (.parseErr e), [.getStoragePrice spAddressStr],
                 [.storagePriceError e]⟩
            | .ok storagePrice =>
                ⟨none, [.getStoragePrice spAddressStr],
                 [.readQuotaPrice quotaPrice, .storagePrice storagePrice]⟩

/-- Embedding of `getQuotaInfo` (`cmd_payment.go:153-181`): existence
check (line 168), quota-ledger read (line 173), then the verbatim
report of the three counters (lines 178-179). -/
def getQuotaInfo (client : ChainClient) (bucketName : String) : RunResult :=
  match client.headBucket bucketName with
  | .error _ =>
      ⟨some (toCmdErr ErrBucketNotExist), [.headBucket bucketName], []⟩
  | .ok _ =>
      match client.getBucketReadQuota bucketName with
      | .error err =>
          ⟨some (toCmdErr (.client err)),
           [.headBucket bucketName, .getBucketReadQuota bucketName], []⟩
      | .ok quotaInfo =>
          ⟨none,
           [.headBucket bucketName, .getBucketReadQuota bucketName],
           [.quotaInfo quotaInfo.readQuotaSize quotaInfo.spFreeReadQuotaSize
              quotaInfo.readConsumedSize]⟩

/-- Whether a recorded chain call is the fee-bearing quota-purchase
submission. -/
def ChainCall.isBuy : ChainCall → Bool
  | .buyQuotaForBucket _ _ _ => true
  | _ => false

/-- Whether a recorded submission call carries block-level commitment
mode; vacuously true for every non-submission call. -/
def ChainCall.buyModeIsBlock : ChainCall → Bool
  | .buyQuotaForBucket _ _ ⟨some ⟨some .block⟩⟩ => true
  | .buyQuotaForBucket _ _ _ => false
  | _ => true

/-- A stub client on which everything succeeds: the bucket exists, the
ledger is 1000000 / 200000 / 50000, submission is accepted with handle
"0xABC", and the prices are 0.001 (read) and 0.002 (store). -/
def okClient : ChainClient where
  headBucket := fun _ => .ok ()
  getStoragePrice := fun _ => .ok ⟨⟨.ok 0.001⟩, ⟨.ok 0.002⟩⟩
  buyQuotaForBucket := fun _ _ _ => .ok "0xABC"
  getBucketReadQuota := fun _ => .ok ⟨1000000, 200000, 50000⟩

/-- A stub client on which every call is aborted by cancellation. -/
def cancelHeadClient : ChainClient where
  headBucket := fun _ => .error .cancelled
  getStoragePrice := fun _ => .error .cancelled
  buyQuotaForBucket := fun _ _ _ => .error .cancelled
  getBucketReadQuota := fun _ => .error .cancelled

/-- A stub client whose existence check succeeds but whose price query,
submission and ledger read are aborted by cancellation. -/
def cancelLateClient : ChainClient where
  headBucket := fun _ => .ok ()
  getStoragePrice := fun _ => .error .cancelled
  buyQuotaForBucket := fun _ _ _ => .error .cancelled
  getBucketReadQuota := fun _ => .error .cancelled

/-- A stub client whose submission is rejected at chain level and whose
ledger read fails, while the existence check succeeds. -/
def rejectBuyClient : ChainClient where
  headBucket := fun _ => .ok ()
  getStoragePrice := fun _ => .ok ⟨⟨.ok 0.001⟩, ⟨.ok 0.002⟩⟩
  buyQuotaForBucket := fun _ _ _ => .error (.chain "insufficient balance")
  getBucketReadQuota := fun _ => .error (.chain "ledger unavailable")

/-- A stub client returning a price whose read decimal fails to convert. -/
def badPriceClient : ChainClient where
  headBucket := fun _ => .ok ()
  getStoragePrice := fun _ => .ok ⟨⟨.error "bad read"⟩, ⟨.error "bad store"⟩⟩
  buyQuotaForBucket := fun _ _ _ => .ok "0xABC"
  getBucketReadQuota := fun _ => .ok ⟨1000000, 200000, 50000⟩

/-- A stub client returning a price whose read decimal converts to
0.001 but whose store decimal fails to convert. -/
def badStorePriceClient : ChainClient where
  headBucket := fun _ => .ok ()
  getStoragePrice := fun _ => .ok ⟨⟨.ok 0.001⟩, ⟨.error "bad store"⟩⟩
  buyQuotaForBucket := fun _ _ _ => .ok "0xABC"
  getBucketReadQuota := fun _ => .ok ⟨1000000, 200000, 50000⟩

/-- C1, counterexample: invoking the purchase with target quota 0 on an
existing bucket does issue the bucket existence check to the chain
client (one network call), contradicting the claim that the zero target
quota is rejected before any network call and that the existence check
is not invoked. -/
theorem c1_counterexample :
    (buyQuotaForBucket okClient "bucket1" 0).calls =
      [ChainCall.headBucket "bucket1"] ∧
    ChainCall.headBucket "bucket1" ∈ (buyQuotaForBucket okClient "bucket1" 0).calls := by
  refine ⟨rfl, ?_⟩
  simp [buyQuotaForBucket, okClient]

/-- C1, amended: with target quota 0 and an existence check that
succeeds, the purchase fails with the input error "target quota not
set" and the fee-bearing submission step is never invoked; the bucket
existence check, however, is performed (one network call) before the
validation. -/
theorem c1_amended_zero_quota_rejected (client : ChainClient)
    (bucketName : String)
    (hh : client.headBucket bucketName = .ok ()) :
    (buyQuotaForBucket client bucketName 0).result =
      some (CmdErr.inputErr "target quota not set") ∧
    (buyQuotaForBucket client bucketName 0).calls.countP ChainCall.isBuy = 0 ∧
    (buyQuotaForBucket client bucketName 0).calls =
      [ChainCall.headBucket bucketName] := by
  simp [buyQuotaForBucket, hh, toCmdErr, ChainCall.isBuy]

/-- C1, amended, witness at a concrete stub client. -/
theorem c1_witness :
    (buyQuotaForBucket okClient "bucket1" 0).result =
      some (CmdErr.inputErr "target quota not set") ∧
    (buyQuotaForBucket okClient "bucket1" 0).calls.countP ChainCall.isBuy = 0 ∧
    (buyQuotaForBucket okClient "bucket1" 0).calls =
      [ChainCall.headBucket "bucket1"] :=
  c1_amended_zero_quota_rejected okClient "bucket1" rfl

/-- C2: when the submission call fails at chain level, the purchase
orchestration prints the diagnostic line and returns the non-error
outcome, so the failure is never propagated as a process-level error. -/
theorem c2_submission_failure_downgraded (client : ChainClient)
    (bucketName : String) (targetQuota : Nat) (e : ClientErr)
    (hh : client.headBucket bucketName = .ok ())
    (ht : targetQuota ≠ 0)
    (hb : client.buyQuotaForBucket bucketName targetQuota
            ⟨some ⟨some BroadcastMode.block⟩⟩ = .error e) :
    (buyQuotaForBucket client bucketName targetQuota).result = none ∧
    (buyQuotaForBucket client bucketName targetQuota).output =
      [OutputLine.buyQuotaError e.message] := by
  simp [buyQuotaForBucket, hh, ht, hb]

/-- C2, witness at a concrete rejecting stub client. -/
theorem c2_witness :
    (buyQuotaForBucket rejectBuyClient "bucket1" 1000000).result = none ∧
    (buyQuotaForBucket rejectBuyClient "bucket1" 1000000).output =
      [OutputLine.buyQuotaError "insufficient balance"] :=
  c2_submission_failure_downgraded rejectBuyClient "bucket1" 1000000
    (ClientErr.chain "insufficient balance") rfl (by decide) rfl

/-- C3: when the existence check reports failure, both the purchase and
the quota report fail with the dedicated bucket-not-found error kind
(distinct from every generic chain error) and issue no further chain
call: no fee-bearing submission and no quota-ledger read. -/
theorem c3_bucket_not_found (client : ChainClient) (bucketName : String)
    (targetQuota : Nat) (e : ClientErr)
    (hh : client.headBucket bucketName = .error e) :
    ((buyQuotaForBucket client bucketName targetQuota).result =
        some CmdErr.bucketNotExist ∧
      (buyQuotaForBucket client bucketName targetQuota).calls =
        [ChainCall.headBucket bucketName]) ∧
    ((getQuotaInfo client bucketName).result = some CmdErr.bucketNotExist ∧
      (getQuotaInfo client bucketName).calls =
        [ChainCall.headBucket bucketName]) ∧
    (∀ e' : ClientErr, CmdErr.bucketNotExist ≠ CmdErr.client e') := by
  refine ⟨?_, ?_, ?_⟩
  · simp [buyQuotaForBucket, hh, toCmdErr, ErrBucketNotExist]
  · simp [getQuotaInfo, hh, toCmdErr, ErrBucketNotExist]
  · intro e' h
    cases h

/-- C3, witness at a concrete stub client whose existence check fails. -/
theorem c3_witness :
    ((buyQuotaForBucket cancelHeadClient "bucket1" 5).result =
        some CmdErr.bucketNotExist ∧
      (buyQuotaForBucket cancelHeadClient "bucket1" 5).calls =
        [ChainCall.headBucket "bucket1"]) ∧
    ((getQuotaInfo cancelHeadClient "bucket1").result =
        some CmdErr.bucketNotExist ∧
      (getQuotaInfo cancelHeadClient "bucket1").calls =
        [ChainCall.headBucket "bucket1"]) ∧
    (∀ e' : ClientErr, CmdErr.bucketNotExist ≠ CmdErr.client e') :=
  c3_bucket_not_found cancelHeadClient "bucket1" 5 ClientErr.cancelled rfl

/-- C4: every quota-purchase submission recorded in the purchase
orchestration's call trace carries block-level (wait-for-inclusion)
broadcast mode, for every client, bucket name and target quota. -/
theorem c4_submission_mode_block (client : ChainClient)
    (bucketName : String) (targetQuota : Nat) :
    ((buyQuotaForBucket client bucketName targetQuota).calls).all
      ChainCall.buyModeIsBlock = true := by
  unfold buyQuotaForBucket
  cases hh : client.headBucket bucketName with
  | error e => simp [ChainCall.buyModeIsBlock]
  | ok u =>
    by_cases ht : targetQuota = 0
    · simp [ht, ChainCall.buyModeIsBlock]
    · simp only [ht, if_false, ite_false]
      cases hb : client.buyQuotaForBucket bucketName targetQuota
          ⟨some ⟨some BroadcastMode.block⟩⟩ with
      | error e => simp [ChainCall.buyModeIsBlock]
      | ok h => simp [ChainCall.buyModeIsBlock]

/-- C5: with the empty storage-provider address, the price query fails
with the missing-address input error and issues no chain call at all,
for every client. -/
theorem c5_empty_address_no_network (client : ChainClient) :
    (getQuotaPrice client "").result =
      some (CmdErr.inputErr "fail to fetch sp address") ∧
    (getQuotaPrice client "").calls = [] := by
  simp [getQuotaPrice, toCmdErr]

/-- C6, counterexample: a cancellation aborting the in-flight existence
check of the purchase orchestration is surfaced as the bucket-not-found
error, not as a cancellation-shaped error, contradicting the claim that
every cancelled in-flight call surfaces a cancellation-shaped error. -/
theorem c6_counterexample :
    cancelHeadClient.headBucket "bucket1" = .error ClientErr.cancelled ∧
    (buyQuotaForBucket cancelHeadClient "bucket1" 5).result =
      some CmdErr.bucketNotExist ∧
    some CmdErr.bucketNotExist ≠ some (CmdErr.client ClientErr.cancelled) := by
  refine ⟨rfl, rfl, ?_⟩
  decide

/-- C6, amended: a cancellation aborting the in-flight price query or
the quota-ledger read surfaces as the cancellation-shaped error,
distinct from every chain-level rejection; a cancellation aborting the
existence check is reported as bucket-not-found, and one aborting the
submission step is downgraded to a diagnostic with a non-error outcome. -/
theorem c6_amended_cancellation (client : ChainClient)
    (spAddr bucketName : String) (targetQuota : Nat)
    (ha : spAddr ≠ "")
    (hp : client.getStoragePrice spAddr = .error .cancelled)
    (hh : client.headBucket bucketName = .ok ())
    (hq : client.getBucketReadQuota bucketName = .error .cancelled)
    (ht : targetQuota ≠ 0)
    (hb : client.buyQuotaForBucket bucketName targetQuota
            ⟨some ⟨some BroadcastMode.block⟩⟩ = .error .cancelled) :
    (getQuotaPrice client spAddr).result =
      some (CmdErr.client ClientErr.cancelled) ∧
    (getQuotaInfo client bucketName).result =
      some (CmdErr.client ClientErr.cancelled) ∧
    (buyQuotaForBucket client bucketName targetQuota).result = none ∧
    (∀ m : String,
      CmdErr.client ClientErr.cancelled ≠ CmdErr.client (ClientErr.chain m)) := by
  refine ⟨?_, ?_, ?_, ?_⟩
  · simp [getQuotaPrice, ha, hp, toCmdErr]
  · simp [getQuotaInfo, hh, hq, toCmdErr]
  · simp [buyQuotaForBucket, hh, ht, hb]
  · intro m h
    simp at h

/-- C6, amended, witness at a concrete stub client cancelled after the
existence check. -/
theorem c6_witness :
    (getQuotaPrice cancelLateClient "0xSP").result =
      some (CmdErr.client ClientErr.cancelled) ∧
    (getQuotaInfo cancelLateClient "bucket1").result =
      some (CmdErr.client ClientErr.cancelled) ∧
    (buyQuotaForBucket cancelLateClient "bucket1" 5).result = none ∧
    (∀ m : String,
      CmdErr.client ClientErr.cancelled ≠ CmdErr.client (ClientErr.chain m)) :=
  c6_amended_cancellation cancelLateClient "0xSP" "bucket1" 5
    (by decide) rfl rfl rfl (by decide) rfl

/-- C7: when the read-price conversion fails, the price query returns
the parse error and prints only the read-price diagnostic; when the
read-price conversion succeeds but the store-price conversion fails,
the query returns the parse error and prints only the store-price
diagnostic, so the already-converted read price is never printed. -/
theorem c7_price_parse_failure (c1 c2 : ChainClient) (a1 a2 : String)
    (p1 p2 : StoragePrice) (m1 m2 : String) (f : Float)
    (ha1 : a1 ≠ "") (hc1 : c1.getStoragePrice a1 = .ok p1)
    (hr1 : p1.readPrice.float64 = .error m1)
    (ha2 : a2 ≠ "") (hc2 : c2.getStoragePrice a2 = .ok p2)
    (hr2 : p2.readPrice.float64 = .ok f)
    (hs2 : p2.storePrice.float64 = .error m2) :
    ((getQuotaPrice c1 a1).result = some (CmdErr.parseErr m1) ∧
      (getQuotaPrice c1 a1).output = [OutputLine.quotaPriceError m1]) ∧
    ((getQuotaPrice c2 a2).result = some (CmdErr.parseErr m2) ∧
      (getQuotaPrice c2 a2).output = [OutputLine.storagePriceError m2]) := by
  constructor
  · simp [getQuotaPrice, ha1, hc1, hr1]
  · simp [getQuotaPrice, ha2, hc2, hr2, hs2]

/-- C7, witness at concrete stub clients with malformed decimals. -/
theorem c7_witness :
    ((getQuotaPrice badPriceClient "0xSP").result =
        some (CmdErr.parseErr "bad read") ∧
      (getQuotaPrice badPriceClient "0xSP").output =
        [OutputLine.quotaPriceError "bad read"]) ∧
    ((getQuotaPrice badStorePriceClient "0xSP").result =
        some (CmdErr.parseErr "bad store") ∧
      (getQuotaPrice badStorePriceClient "0xSP").output =
        [OutputLine.storagePriceError "bad store"]) :=
  c7_price_parse_failure badPriceClient badStorePriceClient "0xSP" "0xSP"
    _ _ _ _ 0.001 (by decide) rfl rfl (by decide) rfl rfl rfl

/-- C8: for a bucket that passes the existence check, the quota report
returns the non-error outcome and prints the three quota counters
exactly as the ledger read returned them, unmodified. -/
theorem c8_quota_reported_verbatim (client : ChainClient)
    (bucketName : String) (q : QuotaInfo)
    (hh : client.headBucket bucketName = .ok ())
    (hq : client.getBucketReadQuota bucketName = .ok q) :
    (getQuotaInfo client bucketName).result = none ∧
    (getQuotaInfo client bucketName).output =
      [OutputLine.quotaInfo q.readQuotaSize q.spFreeReadQuotaSize
        q.readConsumedSize] := by
  simp [getQuotaInfo, hh, hq]

/-- C8, witness at the stub ledger 1000000 / 200000 / 50000. -/
theorem c8_witness :
    (getQuotaInfo okClient "bucket1").result = none ∧
    (getQuotaInfo okClient "bucket1").output =
      [OutputLine.quotaInfo 1000000 200000 50000] :=
  c8_quota_reported_verbatim okClient "bucket1" ⟨1000000, 200000, 50000⟩ rfl rfl

/-- C9: when the bucket exists, the target quota is non-zero and the
chain accepts the submission returning a transaction handle, the
purchase reports exactly that handle, returns the non-error outcome,
and has invoked the submission step exactly once, with block-level
broadcast mode. -/
theorem c9_successful_purchase (client : ChainClient) (bucketName : String)
    (targetQuota : Nat) (txnHash : String)
    (hh : client.headBucket bucketName = .ok ())
    (ht : targetQuota ≠ 0)
    (hb : client.buyQuotaForBucket bucketName targetQuota
            ⟨some ⟨some BroadcastMode.block⟩⟩ = .ok txnHash) :
    (buyQuotaForBucket client bucketName targetQuota).result = none ∧
    (buyQuotaForBucket client bucketName targetQuota).output =
      [OutputLine.buyQuotaSuccess bucketName txnHash] ∧
    (buyQuotaForBucket client bucketName targetQuota).calls.countP
      ChainCall.isBuy = 1 ∧
    ChainCall.buyQuotaForBucket bucketName targetQuota
        ⟨some ⟨some BroadcastMode.block⟩⟩ ∈
      (buyQuotaForBucket client bucketName targetQuota).calls := by
  simp [buyQuotaForBucket, hh, ht, hb, ChainCall.isBuy]

/-- C9, witness: stub accepting client with handle "0xABC", bucket
"b1", target 1000000. -/
theorem c9_witness :
    (buyQuotaForBucket okClient "b1" 1000000).result = none ∧
    (buyQuotaForBucket okClient "b1" 1000000).output =
      [OutputLine.buyQuotaSuccess "b1" "0xABC"] ∧
    (buyQuotaForBucket okClient "b1" 1000000).calls.countP
      ChainCall.isBuy = 1 ∧
    ChainCall.buyQuotaForBucket "b1" 1000000
        ⟨some ⟨some BroadcastMode.block⟩⟩ ∈
      (buyQuotaForBucket okClient "b1" 1000000).calls :=
  c9_successful_purchase okClient "b1" 1000000 "0xABC" rfl (by decide) rfl

/-- C10: after a successful existence check, a failing quota-ledger
read makes the quota report propagate the failure as a process-level
error, while the purchase orchestration downgrades a failing submission
to a non-error outcome. -/
theorem c10_info_error_propagated (client : ChainClient)
    (bucketName : String) (targetQuota : Nat) (e e' : ClientErr)
    (hh : client.headBucket bucketName = .ok ())
    (hq : client.getBucketReadQuota bucketName = .error e)
    (ht : targetQuota ≠ 0)
    (hb : client.buyQuotaForBucket bucketName targetQuota
            ⟨some ⟨some BroadcastMode.block⟩⟩ = .error e') :
    (getQuotaInfo client bucketName).result = some (CmdErr.client e) ∧
    (buyQuotaForBucket client bucketName targetQuota).result = none := by
  constructor
  · simp [getQuotaInfo, hh, hq, toCmdErr]
  · simp [buyQuotaForBucket, hh, ht, hb]

/-- C10, witness at a concrete stub whose ledger read and submission
both fail after a successful existence check. -/
theorem c10_witness :
    (getQuotaInfo rejectBuyClient "bucket1").result =
      some (CmdErr.client (ClientErr.chain "ledger unavailable")) ∧
    (buyQuotaForBucket rejectBuyClient "bucket1" 7).result = none :=
  c10_info_error_propagated rejectBuyClient "bucket1" 7
    (ClientErr.chain "ledger unavailable")
    (ClientErr.chain "insufficient balance") rfl rfl (by decide) rfl
